import Mathlib

/-!
# Verification of the `RemoteIndex` platefile client
  (src/vw/Plate/RemoteIndex.cc)

A shallow embedding of the `RemoteIndex` client: the URL address parser
(`parse_url`), the write-batching queue and its flush policy, and the
RPC-issuing public operations.  Strings are modelled as `List Char`;
the RPC traffic of one client instance is recorded as an ordered log of
the requests it sends.
-/

namespace Plate

/-! ## Splitting, as `boost::split` with a single-character separator

`boost::split(out, s, is_any_of(c))` splits `s` at every occurrence of the
character `c`, keeping empty tokens: a string with `n` separators yields
`n + 1` tokens. -/

def splitChar (c : Char) : List Char → List (List Char)
  | [] => [[]]
  | x :: xs =>
    match splitChar c xs with
    | [] => [[]]
    | h :: t => if x = c then [] :: h :: t else (x :: h) :: t

/-! ## `boost::lexical_cast<int>`

Stream extraction of a C++ `int`: an optional sign followed by at least one
decimal digit, no surrounding whitespace or trailing characters, and the
value must fit in a 32-bit signed `int`; anything else throws
`boost::bad_lexical_cast`. -/

def readDigits : List Char → Option Nat
  | [] => none
  | [d] => if d.isDigit then some (d.toNat - ('0').toNat) else none
  | d :: rest =>
    if d.isDigit then
      match readDigits rest with
      | some n => some ((d.toNat - ('0').toNat) * 10 ^ rest.length + n)
      | none => none
    else none

def intMax : Int := 2 ^ 31 - 1
def intMin : Int := -(2 ^ 31)

def lexicalCastInt (s : List Char) : Option Int :=
  match s with
  | '+' :: rest =>
    match readDigits rest with
    | some n => if (n : Int) ≤ intMax then some n else none
    | none => none
  | '-' :: rest =>
    match readDigits rest with
    | some n => if intMin ≤ -(n : Int) then some (-(n : Int)) else none
    | none => none
  | _ =>
    match readDigits s with
    | some n => if (n : Int) ≤ intMax then some n else none
    | none => none

/-! ## The address parser `parse_url` -/

/-- The fields `parse_url` assigns through its output reference
parameters. -/
structure Addr where
  hostname : List Char
  port : Int
  exchange : List Char
  platefile_name : List Char
deriving Repr, DecidableEq

/-- The distinct failures of `parse_url`.  The first three are the three
`vw_throw(vw::ArgumentErr() ...)` sites; `badLexicalCast` is the
`boost::bad_lexical_cast` thrown out of `boost::lexical_cast<int>` on a
non-numeric port (it is not a `vw::ArgumentErr`). -/
inductive ParseErr where
  | malformedURL
  | badHostPort
  | badSegmentCount
  | badLexicalCast
deriving Repr, DecidableEq

/-- Which failures are `vw::ArgumentErr` throws (the documented
`InvalidAddressError`/`ArgumentError` family). -/
def ParseErr.isArgumentErr : ParseErr → Bool
  | .malformedURL => true
  | .badHostPort => true
  | .badSegmentCount => true
  | .badLexicalCast => false

def pfScheme : List Char := ['p', 'f', ':', '/', '/']

def localhostChars : List Char := ['l', 'o', 'c', 'a', 'l', 'h', 'o', 's', 't']

/-- `parse_url` (RemoteIndex.cc lines 22-70).  `url.find("pf://") != 0`
holds exactly when `"pf://"` is not a prefix of `url`, i.e. when the first
five characters differ from the scheme token. -/
def parse_url (url : List Char) : Except ParseErr Addr :=
  if url.take 5 ≠ pfScheme then
    .error .malformedURL
  else
    let substr := url.drop 5
    let split_vec := splitChar '/' substr
    if h2 : split_vec.length = 2 then
      -- No hostname was specified: pf://<routing_key>/<platefilename>.plate
      .ok { hostname := localhostChars
            port := 5672
            exchange := split_vec[0]
            platefile_name := split_vec[1] }
    else if h3 : split_vec.length = 3 then
      let exchange := split_vec[1]
      let platefile_name := split_vec[2]
      let host_port_vec := splitChar ':' split_vec[0]
      if hh1 : host_port_vec.length = 1 then
        .ok { hostname := host_port_vec[0]
              port := 5672
              exchange := exchange
              platefile_name := platefile_name }
      else if hh2 : host_port_vec.length = 2 then
        match lexicalCastInt host_port_vec[1] with
        | some p =>
          .ok { hostname := host_port_vec[0]
                port := p
                exchange := exchange
                platefile_name := platefile_name }
        | none => .error .badLexicalCast
      else
        .error .badHostPort
    else
      .error .badSegmentCount

/-! ## Protobuf message payloads

Only the fields the client actually sets or reads are modelled; C++ `int`
fields are `Int`, `uint64` is `Nat`, strings are `List Char`. -/

structure TileHeader where
  col : Int
  row : Int
  level : Int
  filetype : List Char
deriving Repr, DecidableEq

structure IndexRecord where
  blob_id : Int
  blob_offset : Nat
  blob_record_size : Int
  status : Int
deriving Repr, DecidableEq

/-- One `IndexWriteUpdate` message as built by `RemoteIndex::write_update`:
platefile id plus the header/record pair. -/
structure IndexWriteUpdate where
  platefile_id : Int
  header : TileHeader
  record : IndexRecord
deriving Repr, DecidableEq

structure IndexHeader where
  platefile_id : Int
  tile_size : Int
  tile_filetype : List Char
  pixel_format : Int
  channel_type : Int
  version : Int
deriving Repr, DecidableEq

def IndexHeader.set_platefile_id (h : IndexHeader) (v : Int) : IndexHeader :=
  { h with platefile_id := v }

/-- The `IndexCreateRequest` message sent by the create constructor. -/
structure IndexCreateRequest where
  plate_name : List Char
  index_header : IndexHeader
deriving Repr, DecidableEq

/-- The region argument of `valid_tiles`, through the four accessors the
code reads from the `BBox2i`: min corner and extents. -/
structure BBox2i where
  min_x : Int
  min_y : Int
  width : Int
  height : Int
deriving Repr, DecidableEq

/-- One outbound request to the index service, tagged by which stub method
sends it.  Each constructor carries exactly the fields the client sets on
that request message. -/
inductive RPC where
  | readRequest (platefile_id col row level transaction_id : Int)
      (exact_transaction_match : Bool)
  | multiReadRequest
      (platefile_id col row level begin_transaction_id end_transaction_id : Int)
  | writeRequest (platefile_id size : Int)
  | multiWriteUpdate (write_updates : List IndexWriteUpdate)
  | writeComplete (platefile_id blob_id : Int) (blob_offset : Nat)
  | validTiles (platefile_id level region_col region_row region_width
      region_height begin_transaction_id end_transaction_id
      min_num_matches : Int)
  | numLevelsRequest (platefile_id : Int)
  | transactionRequest (platefile_id : Int) (description : List Char)
      (transaction_id_override : Int)
  | transactionComplete (platefile_id transaction_id : Int)
      (update_read_cursor : Bool)
  | transactionFailed (platefile_id transaction_id : Int)
  | transactionCursorRequest (platefile_id : Int)
deriving Repr, DecidableEq

/-- The remote index service, as the deterministic replies the stub fills
into each response message.  Only replies whose contents the client
returns to its caller are modelled. -/
structure IndexService where
  readReply : RPC → IndexRecord
  multiReadReply : RPC → List (Int × IndexRecord)
  writeReply : RPC → Int
  validTilesReply : RPC → List TileHeader
  numLevelsReply : RPC → Int
  transactionReply : RPC → Int
  transactionCursorReply : RPC → Int

/-! ## The `RemoteIndex` client state

The observable state of one instance: its platefile id, the mutable
`m_write_queue` (front of the FIFO = head of the list), and the ordered
log of every request this instance has sent. -/

structure RemoteIndexState where
  platefile_id : Int
  write_queue : List IndexWriteUpdate
  rpc_log : List RPC
deriving Repr, DecidableEq

namespace RemoteIndex

/-- Both constructors leave `m_write_queue` default-constructed (empty); no
RPC issued before the session is established is a write-queue flush, so the
log starts empty for our purposes. -/
def initState (pid : Int) : RemoteIndexState :=
  { platefile_id := pid, write_queue := [], rpc_log := [] }

/-- The `while` loop of `flush_write_queue`: repeatedly pop the front of
the queue and append it to the request's `write_updates` field. -/
def drainLoop : List IndexWriteUpdate → List IndexWriteUpdate →
    List IndexWriteUpdate × List IndexWriteUpdate
  | [], acc => (acc, [])
  | u :: rest, acc => drainLoop rest (acc ++ [u])

/-- `RemoteIndex::flush_write_queue` (lines 229-238): drain the whole queue
into one `IndexMultiWriteUpdate` request, then unconditionally send it —
there is no emptiness check, so the `MultiWriteUpdate` RPC is issued even
when the queue was empty. -/
def flush_write_queue (s : RemoteIndexState) : RemoteIndexState :=
  let drained := drainLoop s.write_queue []
  { s with write_queue := drained.2
           rpc_log := s.rpc_log ++ [.multiWriteUpdate drained.1] }

/-- The flush threshold of `RemoteIndex::write_update` (line 223). -/
def max_pending_write_updates : Nat := 10

/-- `RemoteIndex::write_update` (lines 216-227): build the update, push it
on the queue, and flush when the queue size has reached the threshold. -/
def write_update (header : TileHeader) (record : IndexRecord)
    (s : RemoteIndexState) : RemoteIndexState :=
  let request : IndexWriteUpdate :=
    { platefile_id := s.platefile_id, header := header, record := record }
  let s1 := { s with write_queue := s.write_queue ++ [request] }
  if max_pending_write_updates ≤ s1.write_queue.length then
    flush_write_queue s1
  else
    s1

/-- `RemoteIndex::read_request` (lines 154-170). -/
def read_request (svc : IndexService) (col row level transaction_id : Int)
    (exact_transaction_match : Bool) (s : RemoteIndexState) :
    RemoteIndexState × IndexRecord :=
  let s0 := flush_write_queue s
  let request : RPC := .readRequest s0.platefile_id col row level
    transaction_id exact_transaction_match
  ({ s0 with rpc_log := s0.rpc_log ++ [request] }, svc.readReply request)

/-- `RemoteIndex::multi_read_request` (lines 172-198). -/
def multi_read_request (svc : IndexService)
    (col row level begin_transaction_id end_transaction_id : Int)
    (s : RemoteIndexState) : RemoteIndexState × List (Int × IndexRecord) :=
  let s0 := flush_write_queue s
  let request : RPC := .multiReadRequest s0.platefile_id col row level
    begin_transaction_id end_transaction_id
  ({ s0 with rpc_log := s0.rpc_log ++ [request] }, svc.multiReadReply request)

/-- `RemoteIndex::write_request` (lines 203-212): no flush; one
`IndexWriteRequest` RPC; returns the reply's `blob_id`. -/
def write_request (svc : IndexService) (size : Int)
    (s : RemoteIndexState) : RemoteIndexState × Int :=
  let request : RPC := .writeRequest s.platefile_id size
  ({ s with rpc_log := s.rpc_log ++ [request] }, svc.writeReply request)

/-- `RemoteIndex::write_complete` (lines 241-252). -/
def write_complete (blob_id : Int) (blob_offset : Nat)
    (s : RemoteIndexState) : RemoteIndexState :=
  let s0 := flush_write_queue s
  let request : RPC := .writeComplete s0.platefile_id blob_id blob_offset
  { s0 with rpc_log := s0.rpc_log ++ [request] }

/-- `RemoteIndex::valid_tiles` (lines 254-280). -/
def valid_tiles (svc : IndexService) (level : Int) (region : BBox2i)
    (begin_transaction_id end_transaction_id min_num_matches : Int)
    (s : RemoteIndexState) : RemoteIndexState × List TileHeader :=
  let s0 := flush_write_queue s
  let request : RPC := .validTiles s0.platefile_id level region.min_x
    region.min_y region.width region.height begin_transaction_id
    end_transaction_id min_num_matches
  ({ s0 with rpc_log := s0.rpc_log ++ [request] }, svc.validTilesReply request)

/-- `RemoteIndex::num_levels` (lines 282-291). -/
def num_levels (svc : IndexService) (s : RemoteIndexState) :
    RemoteIndexState × Int :=
  let s0 := flush_write_queue s
  let request : RPC := .numLevelsRequest s0.platefile_id
  ({ s0 with rpc_log := s0.rpc_log ++ [request] }, svc.numLevelsReply request)

/-- `RemoteIndex::transaction_request` (lines 325-337): note that, unlike
the other transaction operations, it does NOT call `flush_write_queue`. -/
def transaction_request (svc : IndexService)
    (transaction_description : List Char) (transaction_id_override : Int)
    (s : RemoteIndexState) : RemoteIndexState × Int :=
  let request : RPC := .transactionRequest s.platefile_id
    transaction_description transaction_id_override
  ({ s with rpc_log := s.rpc_log ++ [request] }, svc.transactionReply request)

/-- `RemoteIndex::transaction_complete` (lines 341-352). -/
def transaction_complete (transaction_id : Int) (update_read_cursor : Bool)
    (s : RemoteIndexState) : RemoteIndexState :=
  let s0 := flush_write_queue s
  let request : RPC := .transactionComplete s0.platefile_id transaction_id
    update_read_cursor
  { s0 with rpc_log := s0.rpc_log ++ [request] }

/-- `RemoteIndex::transaction_failed` (lines 355-365). -/
def transaction_failed (transaction_id : Int)
    (s : RemoteIndexState) : RemoteIndexState :=
  let s0 := flush_write_queue s
  let request : RPC := .transactionFailed s0.platefile_id transaction_id
  { s0 with rpc_log := s0.rpc_log ++ [request] }

/-- `RemoteIndex::transaction_cursor` (lines 367-375): no flush. -/
def transaction_cursor (svc : IndexService) (s : RemoteIndexState) :
    RemoteIndexState × Int :=
  let request : RPC := .transactionCursorRequest s.platefile_id
  ({ s with rpc_log := s.rpc_log ++ [request] },
    svc.transactionCursorReply request)

/-- `RemoteIndex::~RemoteIndex` (lines 146-148): the destructor's only
observable action is the final `flush_write_queue`. -/
def destructor (s : RemoteIndexState) : RemoteIndexState :=
  flush_write_queue s

/-- The create constructor's request assembly (lines 126-130): the
caller-supplied `index_header_info` has its `platefile_id` set to 0 before
being copied into the `IndexCreateRequest`. -/
def buildCreateRequest (platefile_name : List Char)
    (index_header_info : IndexHeader) : IndexCreateRequest :=
  let hdr := index_header_info.set_platefile_id 0
  { plate_name := platefile_name, index_header := hdr }

/-- One public operation of the client, as a relation between the states
before and after the call (return values and arguments existentially
absorbed by the constructors). -/
inductive Step : RemoteIndexState → RemoteIndexState → Prop where
  | read_request (svc : IndexService) (col row level tid : Int) (e : Bool)
      (s : RemoteIndexState) : Step s (read_request svc col row level tid e s).1
  | multi_read_request (svc : IndexService) (col row level b e : Int)
      (s : RemoteIndexState) :
      Step s (multi_read_request svc col row level b e s).1
  | write_request (svc : IndexService) (size : Int) (s : RemoteIndexState) :
      Step s (write_request svc size s).1
  | write_update (h : TileHeader) (r : IndexRecord) (s : RemoteIndexState) :
      Step s (write_update h r s)
  | write_complete (bid : Int) (off : Nat) (s : RemoteIndexState) :
      Step s (write_complete bid off s)
  | valid_tiles (svc : IndexService) (level : Int) (region : BBox2i)
      (b e m : Int) (s : RemoteIndexState) :
      Step s (valid_tiles svc level region b e m s).1
  | num_levels (svc : IndexService) (s : RemoteIndexState) :
      Step s (num_levels svc s).1
  | transaction_request (svc : IndexService) (d : List Char) (o : Int)
      (s : RemoteIndexState) : Step s (transaction_request svc d o s).1
  | transaction_complete (tid : Int) (u : Bool) (s : RemoteIndexState) :
      Step s (transaction_complete tid u s)
  | transaction_failed (tid : Int) (s : RemoteIndexState) :
      Step s (transaction_failed tid s)
  | transaction_cursor (svc : IndexService) (s : RemoteIndexState) :
      Step s (transaction_cursor svc s).1

end RemoteIndex

/-! ## Concrete sample data, for closed instances of the theorems -/

def sampleHeader : TileHeader :=
  { col := 0, row := 0, level := 0, filetype := [] }

def sampleRecord : IndexRecord :=
  { blob_id := 0, blob_offset := 0, blob_record_size := 0, status := 0 }

def sampleUpdate : IndexWriteUpdate :=
  { platefile_id := 7, header := sampleHeader, record := sampleRecord }

/-- A client state with exactly one queued, unflushed write. -/
def queuedState : RemoteIndexState :=
  { platefile_id := 7, write_queue := [sampleUpdate], rpc_log := [] }

/-- A client state whose queue holds nine updates (one below the flush
threshold). -/
def nineState : RemoteIndexState :=
  { platefile_id := 7, write_queue := List.replicate 9 sampleUpdate,
    rpc_log := [] }

/-- A concrete service whose replies are all trivial. -/
def trivialService : IndexService :=
  { readReply := fun _ => sampleRecord
    multiReadReply := fun _ => []
    writeReply := fun _ => 3
    validTilesReply := fun _ => []
    numLevelsReply := fun _ => 0
    transactionReply := fun _ => 1
    transactionCursorReply := fun _ => 0 }

def sampleBox : BBox2i := { min_x := 0, min_y := 0, width := 1, height := 1 }

def exchChars : List Char := ['m', 'y', 'e', 'x', 'c', 'h', 'a', 'n', 'g', 'e']

def plateChars : List Char := ['f', 'o', 'o', '.', 'p', 'l', 'a', 't', 'e']

def hostChars : List Char := ['1', '.', '2', '.', '3', '.', '4']

def portChars : List Char := ['9', '9', '9', '9']

/-- `pf://h:9x/a/b` — a three-segment URL whose port does not parse. -/
def badPortURL : List Char :=
  ['p', 'f', ':', '/', '/', 'h', ':', '9', 'x', '/', 'a', '/', 'b']

/-! ## General lemmas about the embedding -/

theorem splitChar_ne_nil (c : Char) (l : List Char) : splitChar c l ≠ [] := by
  cases l with
  | nil => simp [splitChar]
  | cons x xs =>
    simp only [splitChar]
    cases splitChar c xs with
    | nil => simp
    | cons h t =>
      by_cases hx : x = c <;> simp [hx]

/-- A list containing no separator is a single token. -/
theorem splitChar_of_not_mem {c : Char} {l : List Char} (h : c ∉ l) :
    splitChar c l = [l] := by
  induction l with
  | nil => rfl
  | cons x xs ih =>
    simp only [List.mem_cons, not_or] at h
    simp only [splitChar, ih h.2]
    have hx : ¬ (x = c) := fun hh => h.1 hh.symm
    simp [hx]

/-- Splitting at the first separator: tokens before it come from the
separator-free head. -/
theorem splitChar_append {c : Char} {a : List Char} (b : List Char)
    (h : c ∉ a) : splitChar c (a ++ c :: b) = a :: splitChar c b := by
  induction a with
  | nil =>
    simp only [List.nil_append, splitChar]
    cases hb : splitChar c b with
    | nil => exact absurd hb (splitChar_ne_nil c b)
    | cons hh tt => simp
  | cons x xs ih =>
    simp only [List.mem_cons, not_or] at h
    have hx : ¬ (x = c) := fun hh => h.1 hh.symm
    simp only [List.cons_append, splitChar, List.append_eq]
    rw [ih h.2]
    simp [hx]

namespace RemoteIndex

theorem drainLoop_eq (q acc : List IndexWriteUpdate) :
    drainLoop q acc = (acc ++ q, []) := by
  induction q generalizing acc with
  | nil => simp [drainLoop]
  | cons u rest ih => simp [drainLoop, ih]

/-- Closed form of `flush_write_queue`: the queue is emptied and the one
`MultiWriteUpdate` request carries the former queue contents in order. -/
theorem flush_write_queue_eq (s : RemoteIndexState) :
    flush_write_queue s =
      { s with write_queue := []
               rpc_log := s.rpc_log ++ [.multiWriteUpdate s.write_queue] } := by
  simp [flush_write_queue, drainLoop_eq]

end RemoteIndex

/-- Evaluation of `parse_url` on any well-formed two-segment URL. -/
theorem parse_url_two_segments (r p : List Char)
    (hr : '/' ∉ r) (hp : '/' ∉ p) :
    parse_url (pfScheme ++ (r ++ '/' :: p)) =
      .ok { hostname := localhostChars, port := 5672, exchange := r,
            platefile_name := p } := by
  have htake : (pfScheme ++ (r ++ '/' :: p)).take 5 = pfScheme := rfl
  have hdrop : (pfScheme ++ (r ++ '/' :: p)).drop 5 = r ++ '/' :: p := rfl
  have hsplit : splitChar '/' (r ++ '/' :: p) = [r, p] := by
    rw [splitChar_append p hr, splitChar_of_not_mem hp]
  simp [parse_url, htake, hdrop, hsplit]

/-- Evaluation of `parse_url` on any well-formed three-segment URL, its
host/port field left intact as `hp`. -/
theorem parse_url_three_segments (hp r p : List Char)
    (h1 : '/' ∉ hp) (h2 : '/' ∉ r) (h3 : '/' ∉ p) :
    parse_url (pfScheme ++ (hp ++ '/' :: (r ++ '/' :: p))) =
      (match splitChar ':' hp with
       | [h] => .ok { hostname := h, port := 5672, exchange := r,
                      platefile_name := p }
       | [h, ps] =>
         match lexicalCastInt ps with
         | some pt => .ok { hostname := h, port := pt, exchange := r,
                            platefile_name := p }
         | none => .error .badLexicalCast
       | _ => .error .badHostPort) := by
  have htake : (pfScheme ++ (hp ++ '/' :: (r ++ '/' :: p))).take 5 =
      pfScheme := rfl
  have hdrop : (pfScheme ++ (hp ++ '/' :: (r ++ '/' :: p))).drop 5 =
      hp ++ '/' :: (r ++ '/' :: p) := rfl
  have hsplit : splitChar '/' (hp ++ '/' :: (r ++ '/' :: p)) = [hp, r, p] := by
    rw [splitChar_append _ h1, splitChar_append p h2, splitChar_of_not_mem h3]
  simp only [parse_url, htake, hdrop, hsplit]
  cases hcolon : splitChar ':' hp with
  | nil => exact absurd hcolon (splitChar_ne_nil ':' hp)
  | cons a t =>
    cases t with
    | nil => simp [hcolon]
    | cons b t2 =>
      cases t2 with
      | nil => simp [hcolon]
      | cons c2 t3 => simp [hcolon]

/-! ## The claims -/

/-- C1: the claim that `flush()` on an empty write queue issues no RPC is
false: `flush_write_queue` has no emptiness check, so flushing an empty
queue still sends one `MultiWriteUpdate` request (with zero entries) to
the index service. -/
theorem C1_counterexample :
    (RemoteIndex.flush_write_queue (RemoteIndex.initState 7)).rpc_log =
      [RPC.multiWriteUpdate []] ∧
    (RemoteIndex.flush_write_queue (RemoteIndex.initState 7)).rpc_log ≠
      (RemoteIndex.initState 7).rpc_log := by
  constructor
  · rfl
  · decide

/-- C1 (amended): `flush()` on an empty write queue is not a no-op: it
issues exactly one `MultiWriteUpdate` RPC carrying zero entries, and the
queue stays empty. -/
theorem C1_empty_flush_sends_one_rpc (s : RemoteIndexState)
    (h : s.write_queue = []) :
    (RemoteIndex.flush_write_queue s).rpc_log =
      s.rpc_log ++ [RPC.multiWriteUpdate []] ∧
    (RemoteIndex.flush_write_queue s).write_queue = [] := by
  simp [RemoteIndex.flush_write_queue_eq, h]

theorem C1_empty_flush_sends_one_rpc_witness :
    (RemoteIndex.initState 7).write_queue = [] ∧
    ((RemoteIndex.flush_write_queue (RemoteIndex.initState 7)).rpc_log =
        (RemoteIndex.initState 7).rpc_log ++ [RPC.multiWriteUpdate []] ∧
      (RemoteIndex.flush_write_queue (RemoteIndex.initState 7)).write_queue =
        []) :=
  ⟨rfl, C1_empty_flush_sends_one_rpc (RemoteIndex.initState 7) rfl⟩

/-- C2: the claim that every public operation other than `write_request`
and `transaction_cursor` flushes first is false: `transaction_request`
issues its own RPC without flushing, leaving the queued write in place
and sending no `MultiWriteUpdate`. -/
theorem C2_counterexample :
    (RemoteIndex.transaction_request trivialService [] 0 queuedState).1.write_queue
        = [sampleUpdate] ∧
    (RemoteIndex.transaction_request trivialService [] 0 queuedState).1.rpc_log
        = [RPC.transactionRequest 7 [] 0] := by
  constructor <;> rfl

/-- C2 (amended): every public operation other than `write_request`,
`transaction_cursor` and `transaction_request` — reads, enumeration,
`num_levels`, `write_complete`, `transaction_complete`,
`transaction_failed` — flushes first, so with queued unflushed writes
exactly one flush RPC carrying those writes precedes the operation's own
RPC; `transaction_request` instead issues only its own RPC. -/
theorem C2_flush_precedes_operations (svc : IndexService)
    (s : RemoteIndexState) (col row level tid btid etid mnm bid o tid2 tid3 :
    Int) (off : Nat) (ex urc : Bool) (d : List Char) (region : BBox2i)
    (hq : s.write_queue ≠ []) :
    (RemoteIndex.read_request svc col row level tid ex s).1.rpc_log =
      s.rpc_log ++ [RPC.multiWriteUpdate s.write_queue,
        RPC.readRequest s.platefile_id col row level tid ex] ∧
    (RemoteIndex.multi_read_request svc col row level btid etid s).1.rpc_log =
      s.rpc_log ++ [RPC.multiWriteUpdate s.write_queue,
        RPC.multiReadRequest s.platefile_id col row level btid etid] ∧
    (RemoteIndex.valid_tiles svc level region btid etid mnm s).1.rpc_log =
      s.rpc_log ++ [RPC.multiWriteUpdate s.write_queue,
        RPC.validTiles s.platefile_id level region.min_x region.min_y
          region.width region.height btid etid mnm] ∧
    (RemoteIndex.num_levels svc s).1.rpc_log =
      s.rpc_log ++ [RPC.multiWriteUpdate s.write_queue,
        RPC.numLevelsRequest s.platefile_id] ∧
    (RemoteIndex.write_complete bid off s).rpc_log =
      s.rpc_log ++ [RPC.multiWriteUpdate s.write_queue,
        RPC.writeComplete s.platefile_id bid off] ∧
    (RemoteIndex.transaction_complete tid2 urc s).rpc_log =
      s.rpc_log ++ [RPC.multiWriteUpdate s.write_queue,
        RPC.transactionComplete s.platefile_id tid2 urc] ∧
    (RemoteIndex.transaction_failed tid3 s).rpc_log =
      s.rpc_log ++ [RPC.multiWriteUpdate s.write_queue,
        RPC.transactionFailed s.platefile_id tid3] ∧
    (RemoteIndex.transaction_request svc d o s).1.rpc_log =
      s.rpc_log ++ [RPC.transactionRequest s.platefile_id d o] := by
  refine ⟨?_, ?_, ?_, ?_, ?_, ?_, ?_, ?_⟩ <;>
    simp [RemoteIndex.read_request, RemoteIndex.multi_read_request,
      RemoteIndex.valid_tiles, RemoteIndex.num_levels,
      RemoteIndex.write_complete, RemoteIndex.transaction_complete,
      RemoteIndex.transaction_failed, RemoteIndex.transaction_request,
      RemoteIndex.flush_write_queue_eq]

theorem C2_flush_precedes_operations_witness :
    (RemoteIndex.read_request trivialService 0 0 0 0 false
        queuedState).1.rpc_log =
      queuedState.rpc_log ++ [RPC.multiWriteUpdate queuedState.write_queue,
        RPC.readRequest queuedState.platefile_id 0 0 0 0 false] :=
  (C2_flush_precedes_operations trivialService queuedState 0 0 0 0 0 0 0 0 0
    0 0 0 false false [] sampleBox (by decide)).1

/-- C3: the claim that a 3-segment URL with a non-integer port fails with
the documented `InvalidAddressError`/`ArgumentError` is false: the failure
comes from `boost::lexical_cast<int>` throwing `boost::bad_lexical_cast`,
which is not a `vw::ArgumentErr`. -/
theorem C3_counterexample :
    parse_url badPortURL = .error .badLexicalCast ∧
    ParseErr.badLexicalCast.isArgumentErr = false :=
  ⟨rfl, rfl⟩

/-- C3 (amended): for every 3-segment URL whose port component does not
parse as an integer, parsing fails — but by propagating
`boost::bad_lexical_cast`, not the documented
`InvalidAddressError`/`ArgumentError`; a host component with more than one
`:` separator is also a parse failure, and that one is a
`vw::ArgumentErr`. -/
theorem C3_port_failure_modes (host portstr a b c2 r p : List Char)
    (hhost : '/' ∉ host) (hports : '/' ∉ portstr)
    (hr : '/' ∉ r) (hp : '/' ∉ p)
    (hhc : ':' ∉ host) (hpc : ':' ∉ portstr)
    (hcast : lexicalCastInt portstr = none)
    (ha : '/' ∉ a) (hb : '/' ∉ b) (hc2 : '/' ∉ c2)
    (hac : ':' ∉ a) (hbc : ':' ∉ b) (hcc : ':' ∉ c2) :
    parse_url (pfScheme ++ ((host ++ ':' :: portstr) ++ '/' ::
        (r ++ '/' :: p))) = .error .badLexicalCast ∧
    ParseErr.badLexicalCast.isArgumentErr = false ∧
    parse_url (pfScheme ++ ((a ++ ':' :: (b ++ ':' :: c2)) ++ '/' ::
        (r ++ '/' :: p))) = .error .badHostPort ∧
    ParseErr.badHostPort.isArgumentErr = true := by
  refine ⟨?_, rfl, ?_, rfl⟩
  · have hnp : '/' ∉ host ++ ':' :: portstr := by
      simp only [List.mem_append, List.mem_cons, not_or]
      exact ⟨hhost, by decide, hports⟩
    rw [parse_url_three_segments _ r p hnp hr hp,
      splitChar_append portstr hhc, splitChar_of_not_mem hpc]
    simp [hcast]
  · have hnp : '/' ∉ a ++ ':' :: (b ++ ':' :: c2) := by
      simp only [List.mem_append, List.mem_cons, not_or]
      exact ⟨ha, by decide, hb, by decide, hc2⟩
    rw [parse_url_three_segments _ r p hnp hr hp,
      splitChar_append _ hac, splitChar_append _ hbc,
      splitChar_of_not_mem hcc]

theorem C3_port_failure_modes_witness :
    lexicalCastInt ['9', 'x'] = none ∧
    (parse_url (pfScheme ++ ((['h'] ++ ':' :: ['9', 'x']) ++ '/' ::
        (['a'] ++ '/' :: ['b']))) = .error .badLexicalCast ∧
      ParseErr.badLexicalCast.isArgumentErr = false ∧
      parse_url (pfScheme ++ ((['h'] ++ ':' :: (['i'] ++ ':' :: ['j'])) ++
        '/' :: (['a'] ++ '/' :: ['b']))) = .error .badHostPort ∧
      ParseErr.badHostPort.isArgumentErr = true) :=
  ⟨by decide, C3_port_failure_modes ['h'] ['9', 'x'] ['h'] ['i'] ['j'] ['a']
    ['b'] (by decide) (by decide) (by decide) (by decide) (by decide)
    (by decide) (by decide) (by decide) (by decide) (by decide) (by decide)
    (by decide) (by decide)⟩

/-- C4: enqueueing below the threshold of 10 issues no RPC and appends the
update client-side; the enqueue that brings the queue to exactly 10
triggers exactly one batched `MultiWriteUpdate` RPC containing all 10
entries in insertion order and empties the queue. -/
theorem C4_write_update_threshold (s : RemoteIndexState) (hd : TileHeader)
    (rc : IndexRecord) :
    (s.write_queue.length + 1 < RemoteIndex.max_pending_write_updates →
      RemoteIndex.write_update hd rc s =
        { s with write_queue := s.write_queue ++
            [{ platefile_id := s.platefile_id, header := hd,
               record := rc }] }) ∧
    (s.write_queue.length + 1 = RemoteIndex.max_pending_write_updates →
      RemoteIndex.write_update hd rc s =
        { s with write_queue := []
                 rpc_log := s.rpc_log ++
                   [RPC.multiWriteUpdate (s.write_queue ++
                     [{ platefile_id := s.platefile_id, header := hd,
                        record := rc }])] }) := by
  constructor
  · intro h
    have hlen : ¬ (RemoteIndex.max_pending_write_updates ≤
        s.write_queue.length + 1) := Nat.not_le.mpr h
    simp [RemoteIndex.write_update, hlen]
  · intro h
    have hlen : RemoteIndex.max_pending_write_updates ≤
        s.write_queue.length + 1 := le_of_eq h.symm
    simp [RemoteIndex.write_update, hlen, RemoteIndex.flush_write_queue_eq]

theorem C4_write_update_threshold_witness :
    RemoteIndex.write_update sampleHeader sampleRecord nineState =
      { nineState with write_queue := []
                       rpc_log := nineState.rpc_log ++
                         [RPC.multiWriteUpdate (nineState.write_queue ++
                           [{ platefile_id := nineState.platefile_id,
                              header := sampleHeader,
                              record := sampleRecord }])] } :=
  (C4_write_update_threshold nineState sampleHeader sampleRecord).2
    (by decide)

/-- C5: a 2-segment URL maps to hostname `localhost`, port 5672, with
routing key and platefile name from the two segments; a 3-segment URL with
explicit host and numeric port maps to that host and port, the port
defaulting to 5672 when omitted. -/
theorem C5_address_field_mapping (r p host portstr : List Char)
    (portval : Int) (hr : '/' ∉ r) (hp : '/' ∉ p) (hh : '/' ∉ host)
    (hhc : ':' ∉ host) (hps : '/' ∉ portstr) (hpsc : ':' ∉ portstr)
    (hcast : lexicalCastInt portstr = some portval) :
    parse_url (pfScheme ++ (r ++ '/' :: p)) =
      .ok { hostname := localhostChars, port := 5672, exchange := r,
            platefile_name := p } ∧
    parse_url (pfScheme ++ ((host ++ ':' :: portstr) ++ '/' ::
        (r ++ '/' :: p))) =
      .ok { hostname := host, port := portval, exchange := r,
            platefile_name := p } ∧
    parse_url (pfScheme ++ (host ++ '/' :: (r ++ '/' :: p))) =
      .ok { hostname := host, port := 5672, exchange := r,
            platefile_name := p } := by
  refine ⟨parse_url_two_segments r p hr hp, ?_, ?_⟩
  · have hnp : '/' ∉ host ++ ':' :: portstr := by
      simp only [List.mem_append, List.mem_cons, not_or]
      exact ⟨hh, by decide, hps⟩
    rw [parse_url_three_segments _ r p hnp hr hp,
      splitChar_append portstr hhc, splitChar_of_not_mem hpsc]
    simp [hcast]
  · rw [parse_url_three_segments host r p hh hr hp,
      splitChar_of_not_mem hhc]

theorem C5_address_field_mapping_witness :
    parse_url (pfScheme ++ (exchChars ++ '/' :: plateChars)) =
      .ok { hostname := localhostChars, port := 5672, exchange := exchChars,
            platefile_name := plateChars } ∧
    parse_url (pfScheme ++ ((hostChars ++ ':' :: portChars) ++ '/' ::
        (exchChars ++ '/' :: plateChars))) =
      .ok { hostname := hostChars, port := 9999, exchange := exchChars,
            platefile_name := plateChars } ∧
    parse_url (pfScheme ++ (hostChars ++ '/' ::
        (exchChars ++ '/' :: plateChars))) =
      .ok { hostname := hostChars, port := 5672, exchange := exchChars,
            platefile_name := plateChars } :=
  C5_address_field_mapping exchChars plateChars hostChars portChars 9999
    (by decide) (by decide) (by decide) (by decide) (by decide) (by decide)
    (by decide)

/-- C6: a URL not starting with the scheme token `pf://`, or whose
post-scheme path has a segment count other than 2 or 3, is a parse
failure; no best-effort field assignment is returned. -/
theorem C6_malformed_url_fails (url rest : List Char)
    (hscheme : url.take 5 ≠ pfScheme)
    (h2 : (splitChar '/' rest).length ≠ 2)
    (h3 : (splitChar '/' rest).length ≠ 3) :
    parse_url url = .error .malformedURL ∧
    parse_url (pfScheme ++ rest) = .error .badSegmentCount := by
  constructor
  · simp [parse_url, hscheme]
  · have htake : (pfScheme ++ rest).take 5 = pfScheme := rfl
    have hdrop : (pfScheme ++ rest).drop 5 = rest := rfl
    simp [parse_url, htake, hdrop, h2, h3]

theorem C6_malformed_url_fails_witness :
    parse_url ['h', 't', 't', 'p'] = .error .malformedURL ∧
    parse_url (pfScheme ++ ['a', '/', 'b', '/', 'c', '/', 'd']) =
      .error .badSegmentCount :=
  C6_malformed_url_fails ['h', 't', 't', 'p']
    ['a', '/', 'b', '/', 'c', '/', 'd'] (by decide) (by decide) (by decide)

/-- C7: `write_request` never flushes: the write queue is unchanged, the
only RPC issued is its own `IndexWriteRequest`, and the returned value is
the reply's `blob_id`. -/
theorem C7_write_request_no_flush (svc : IndexService) (size : Int)
    (s : RemoteIndexState) :
    (RemoteIndex.write_request svc size s).1.write_queue = s.write_queue ∧
    (RemoteIndex.write_request svc size s).1.rpc_log =
      s.rpc_log ++ [RPC.writeRequest s.platefile_id size] ∧
    (RemoteIndex.write_request svc size s).2 =
      svc.writeReply (RPC.writeRequest s.platefile_id size) :=
  ⟨rfl, rfl, rfl⟩

/-- C8: destroying a `RemoteIndex` whose queue is non-empty issues a final
flush RPC carrying all remaining queued updates; nothing is discarded. -/
theorem C8_destructor_flushes (s : RemoteIndexState)
    (h : s.write_queue ≠ []) :
    (RemoteIndex.destructor s).rpc_log =
      s.rpc_log ++ [RPC.multiWriteUpdate s.write_queue] ∧
    (RemoteIndex.destructor s).write_queue = [] := by
  simp [RemoteIndex.destructor, RemoteIndex.flush_write_queue_eq]

theorem C8_destructor_flushes_witness :
    queuedState.write_queue ≠ [] ∧
    ((RemoteIndex.destructor queuedState).rpc_log =
        queuedState.rpc_log ++
          [RPC.multiWriteUpdate queuedState.write_queue] ∧
      (RemoteIndex.destructor queuedState).write_queue = []) :=
  ⟨by decide, C8_destructor_flushes queuedState (by decide)⟩

/-- C9: the create constructor overwrites the caller-supplied header's
`platefile_id` with 0 before sending the `IndexCreateRequest`, so the
request always carries `platefile_id = 0` whatever the caller supplied. -/
theorem C9_create_zeroes_platefile_id (platefile_name : List Char)
    (hdr : IndexHeader) :
    (RemoteIndex.buildCreateRequest platefile_name hdr).index_header =
      hdr.set_platefile_id 0 ∧
    (RemoteIndex.buildCreateRequest platefile_name
        hdr).index_header.platefile_id = 0 ∧
    (RemoteIndex.buildCreateRequest platefile_name hdr).plate_name =
      platefile_name :=
  ⟨rfl, rfl, rfl⟩

/-- C10: the queue size strictly below the threshold of 10 is an invariant
of every public operation; every flush drains the queue completely, and
the initial state satisfies the bound. -/
theorem C10_queue_bound_invariant (s s' t : RemoteIndexState) (pid : Int)
    (hstep : RemoteIndex.Step s s')
    (hinv : s.write_queue.length < RemoteIndex.max_pending_write_updates) :
    s'.write_queue.length < RemoteIndex.max_pending_write_updates ∧
    (RemoteIndex.flush_write_queue t).write_queue = [] ∧
    (RemoteIndex.initState pid).write_queue.length <
      RemoteIndex.max_pending_write_updates := by
  refine ⟨?_, by simp [RemoteIndex.flush_write_queue_eq],
    by simp [RemoteIndex.initState, RemoteIndex.max_pending_write_updates]⟩
  cases hstep with
  | read_request svc col row level tid e s0 =>
    simp [RemoteIndex.read_request, RemoteIndex.flush_write_queue_eq,
      RemoteIndex.max_pending_write_updates]
  | multi_read_request svc col row level b e s0 =>
    simp [RemoteIndex.multi_read_request, RemoteIndex.flush_write_queue_eq,
      RemoteIndex.max_pending_write_updates]
  | write_request svc size s0 =>
    simpa [RemoteIndex.write_request] using hinv
  | write_update hd rc s0 =>
    simp only [RemoteIndex.write_update]
    split
    · simp [RemoteIndex.flush_write_queue_eq,
        RemoteIndex.max_pending_write_updates]
    · rename_i hcond
      simp only [List.length_append, List.length_cons,
        List.length_nil] at hcond ⊢
      simp only [RemoteIndex.max_pending_write_updates] at hcond ⊢
      omega
  | write_complete bid off s0 =>
    simp [RemoteIndex.write_complete, RemoteIndex.flush_write_queue_eq,
      RemoteIndex.max_pending_write_updates]
  | valid_tiles svc level region b e m s0 =>
    simp [RemoteIndex.valid_tiles, RemoteIndex.flush_write_queue_eq,
      RemoteIndex.max_pending_write_updates]
  | num_levels svc s0 =>
    simp [RemoteIndex.num_levels, RemoteIndex.flush_write_queue_eq,
      RemoteIndex.max_pending_write_updates]
  | transaction_request svc d o s0 =>
    simpa [RemoteIndex.transaction_request] using hinv
  | transaction_complete tid u s0 =>
    simp [RemoteIndex.transaction_complete, RemoteIndex.flush_write_queue_eq,
      RemoteIndex.max_pending_write_updates]
  | transaction_failed tid s0 =>
    simp [RemoteIndex.transaction_failed, RemoteIndex.flush_write_queue_eq,
      RemoteIndex.max_pending_write_updates]
  | transaction_cursor svc s0 =>
    simpa [RemoteIndex.transaction_cursor] using hinv

theorem C10_queue_bound_invariant_witness :
    (RemoteIndex.write_update sampleHeader sampleRecord
        nineState).write_queue.length <
      RemoteIndex.max_pending_write_updates ∧
    (RemoteIndex.flush_write_queue nineState).write_queue = [] ∧
    (RemoteIndex.initState 7).write_queue.length <
      RemoteIndex.max_pending_write_updates :=
  C10_queue_bound_invariant nineState _ nineState 7
    (RemoteIndex.Step.write_update sampleHeader sampleRecord nineState)
    (by decide)

end Plate
